import Mathlib

/-
  Verification development for the Crypto-Dashboard repository.

  The Python modules are shallowly embedded as pure Lean functions:
  timestamps are integers counting seconds, Python floats that only feed
  comparisons are rationals, dynamically typed payload fields are a
  numeric-or-not sum type, SQLite tables and CSV files are lists of rows,
  and each fallible effect (a sink write or a dedup query raising) is an
  explicit boolean fault flag passed to the function that performs it.
-/

namespace CryptoDashboard

/-- A dynamically typed Python payload field: either a number or some
non-numeric value.  The validators receive arbitrary payloads, so the
distinction matters there. -/
inductive PyVal where
  | num (q : ℚ)
  | nonNum
deriving DecidableEq, Repr

/-- Numeric value of a payload field; 0 for a non-number, mirroring the
`dict.get(key, 0)` default used by the alert loop. -/
def pyNum : PyVal → ℚ
  | .num q => q
  | .nonNum => 0

/-- The Python built-in `abs` on a numeric value (written out so that it
evaluates by kernel reduction; equal to Mathlib's `|q|`, see
`pyAbs_eq_abs`). -/
def pyAbs (q : ℚ) : ℚ := if q < 0 then -q else q

/-! ## security_config.py -/

/-- `SecurityConfig.MAX_PRICE_VALUE` (one billion dollars). -/
def MAX_PRICE_VALUE : ℚ := 1000000000

/-- `SecurityConfig.MAX_CHANGE_PERCENT` (1000 percent). -/
def MAX_CHANGE_PERCENT : ℚ := 1000

/-- `SecurityConfig.validate_price`: a non-number is rejected; a number is
rejected when it is nonpositive or above the configured maximum. -/
def validate_price : PyVal → Bool
  | .num price => if price ≤ 0 ∨ price > MAX_PRICE_VALUE then false else true
  | .nonNum => false

/-- `SecurityConfig.validate_change_percent`: a non-number is rejected; a
number is rejected when its absolute value exceeds the configured maximum. -/
def validate_change_percent : PyVal → Bool
  | .num change => if pyAbs change > MAX_CHANGE_PERCENT then false else true
  | .nonNum => false

/-- One price observation payload, as the scraper hands it to the logger
and the alert system: the `price`, `change_24h` and `type` fields of the
per-symbol dict.  (The `symbol` and `timestamp` fields of the Python dict
are never read by the logger or the alert engine, so they are omitted.) -/
structure PriceData where
  price : PyVal
  change_24h : PyVal
  type : String
deriving DecidableEq, Repr

/-- `SecurityConfig.validate_price_data`: symbol must be a nonempty string,
price and change must pass their validators, and the asset type must be one
of the two known classes.  (The required-field presence checks of the Python
dict always pass here because the record carries all three fields.) -/
def validate_price_data (symbol : String) (price_data : PriceData) : Bool :=
  if symbol = "" then false
  else if validate_price price_data.price = false then false
  else if validate_change_percent price_data.change_24h = false then false
  else if price_data.type ≠ "crypto" ∧ price_data.type ≠ "stock" then false
  else true

/-! ## data_logger.py -/

/-- A row of the `price_data` SQLite table (and likewise of the CSV log):
the columns written by `log_prices`.  The surrogate id and `created_at`
default column are managed by SQLite and carry no information used by any
operation modelled here. -/
structure Entry where
  timestamp : ℤ
  symbol : String
  price : PyVal
  change_24h : PyVal
  asset_type : String
deriving DecidableEq, Repr

/-- `DataLogger._is_duplicate`: queries the SQLite table for a row with the
same symbol and asset type whose timestamp lies in the closed window of one
minute either side of the candidate timestamp.  If the query raises
(`queryFails`), the exception handler returns `false`. -/
def is_duplicate (db : List Entry) (queryFails : Bool) (symbol : String)
    (timestamp : ℤ) (asset_type : String) : Bool :=
  if queryFails then false
  else db.any fun e =>
    decide (e.symbol = symbol ∧ e.asset_type = asset_type ∧
      timestamp - 60 ≤ e.timestamp ∧ e.timestamp ≤ timestamp + 60)

/-- The two persistence sinks of the logger: the SQLite table and the CSV
flat log. -/
structure LogState where
  db : List Entry
  csv : List Entry
deriving DecidableEq, Repr

/-- Fault injection for one `log_prices` call: whether the dedup SELECT
raises, whether the SQLite INSERT batch raises (before commit, so nothing
persists), and whether the CSV append raises. -/
structure SinkFaults where
  dedupFails : Bool
  sqliteFails : Bool
  csvFails : Bool
deriving DecidableEq, Repr

/-- No fault: every storage operation succeeds. -/
def noFaults : SinkFaults := ⟨false, false, false⟩

/-- The first loop of `DataLogger.log_prices`: build `data_to_log` by
validating each item and checking it against the SQLite table for a
duplicate; every surviving item becomes a row stamped with the single
`current_time` taken at the start of the call. -/
def buildBatch (db : List Entry) (queryFails : Bool) (current_time : ℤ) :
    List (String × PriceData) → List Entry
  | [] => []
  | (symbol, price_data) :: rest =>
    if validate_price_data symbol price_data = false then
      buildBatch db queryFails current_time rest
    else if is_duplicate db queryFails symbol current_time price_data.type = true then
      buildBatch db queryFails current_time rest
    else
      ⟨current_time, symbol, price_data.price, price_data.change_24h,
        price_data.type⟩ :: buildBatch db queryFails current_time rest

/-- `DataLogger._log_to_sqlite`: inserts every row, then commits; on an
exception nothing is committed and the count is 0, otherwise the count is
the number of rows. -/
def log_to_sqlite (db : List Entry) (fails : Bool) (data : List Entry) :
    List Entry × ℕ :=
  if fails then (db, 0) else (db ++ data, data.length)

/-- `DataLogger._log_to_csv`: appends every row; on an exception the count
is 0, otherwise the count is the number of rows. -/
def log_to_csv (csv : List Entry) (fails : Bool) (data : List Entry) :
    List Entry × ℕ :=
  if fails then (csv, 0) else (csv ++ data, data.length)

/-- `DataLogger.log_prices`: returns the new sink states and the returned
count.  An empty batch returns 0; otherwise the validated, dedup-filtered
rows are written to SQLite and to CSV, and the two per-sink counts are
summed into `logged_count`. -/
def log_prices (st : LogState) (faults : SinkFaults) (current_time : ℤ)
    (prices : List (String × PriceData)) : LogState × ℕ :=
  if prices = [] then (st, 0)
  else
    let data_to_log := buildBatch st.db faults.dedupFails current_time prices
    if data_to_log = [] then (st, 0)
    else
      let s := log_to_sqlite st.db faults.sqliteFails data_to_log
      let c := log_to_csv st.csv faults.csvFails data_to_log
      (⟨s.1, c.1⟩, s.2 + c.2)

/-- One invocation of `log_prices` with its fault injection, the wall-clock
time `datetime.now()` observed at the start of the call, and the batch. -/
structure LoggerCall where
  faults : SinkFaults
  time : ℤ
  prices : List (String × PriceData)
deriving DecidableEq, Repr

/-- Run a sequence of `log_prices` calls from a starting state. -/
def runLogger (st : LogState) : List LoggerCall → LogState
  | [] => st
  | c :: rest => runLogger (log_prices st c.faults c.time c.prices).1 rest

/-- Two ledger rows that agree on `(symbol, asset_type)` must have
timestamps more than the one-minute dedup window apart. -/
def entrySeparated (a b : Entry) : Prop :=
  a.symbol = b.symbol → a.asset_type = b.asset_type →
    60 < (a.timestamp - b.timestamp).natAbs

/-- The ledger dedup invariant: every pair of rows with the same
`(symbol, asset_type)` key is more than the dedup window apart. -/
def DedupInv (db : List Entry) : Prop := db.Pairwise entrySeparated

/-- `config.DEFAULT_CLEANUP_DAYS`. -/
def DEFAULT_CLEANUP_DAYS : ℤ := 30

/-- `config.MAX_CLEANUP_DAYS`. -/
def MAX_CLEANUP_DAYS : ℤ := 3650

/-- Outcome of `DataLogger.cleanup_old_data`: the table after the DELETE,
the `deleted_count` taken from `cursor.rowcount` (it is only logged), and
the value the Python function returns — `none` models the implicit `None`
of a function body with no return statement. -/
structure CleanupResult where
  db : List Entry
  deleted_count : ℕ
  ret : Option ℕ
deriving DecidableEq, Repr

/-- `DataLogger.cleanup_old_data`: clamp an out-of-range `days` to the
default, delete every row strictly older than `now - days`, log the count,
and return nothing. -/
def cleanup_old_data (db : List Entry) (now : ℤ) (days : ℤ) : CleanupResult :=
  let d := if days ≤ 0 ∨ days > MAX_CLEANUP_DAYS then DEFAULT_CLEANUP_DAYS else days
  let cutoff_date := now - d * 86400
  let kept := db.filter fun e => decide (¬ e.timestamp < cutoff_date)
  ⟨kept, (db.filter fun e => decide (e.timestamp < cutoff_date)).length, none⟩

/-! ## alert_system.py -/

/-- The mutable fields of `AlertSystem` used by the alert flow: the
threshold, the cooldown in seconds, and the per-symbol map of last alert
times (a Python dict, embedded as an association list in insertion
order). -/
structure AlertState where
  threshold : ℚ
  cooldown : ℤ
  last_alerts : List (String × ℤ)
deriving DecidableEq, Repr

/-- Dict lookup on the last-alert map. -/
def lookupAlert : List (String × ℤ) → String → Option ℤ
  | [], _ => none
  | (s, t) :: rest, symbol => if s = symbol then some t else lookupAlert rest symbol

/-- Dict assignment `last_alerts[symbol] = t`: update in place when the key
exists, append otherwise (Python dicts keep insertion order). -/
def setAlert : List (String × ℤ) → String → ℤ → List (String × ℤ)
  | [], symbol, t => [(symbol, t)]
  | (s, u) :: rest, symbol, t =>
    if s = symbol then (s, t) :: rest else (s, u) :: setAlert rest symbol t

/-- `AlertSystem._can_send_alert`: true when the symbol has no recorded
alert or when at least the cooldown has elapsed since the recorded time. -/
def can_send_alert (st : AlertState) (symbol : String) (current_time : ℤ) : Bool :=
  match lookupAlert st.last_alerts symbol with
  | none => true
  | some t => decide (current_time - t ≥ st.cooldown)

/-- An alert event as built by `check_price_alerts` (the rendered
human-readable `message` string is presentation only and omitted). -/
structure Alert where
  symbol : String
  price : PyVal
  change_24h : ℚ
  threshold : ℚ
  timestamp : ℤ
  type : String
deriving DecidableEq, Repr

/-- The loop body of `AlertSystem.check_price_alerts`: skip invalid items;
on a threshold crossing that passes the cooldown check, emit the event and
set `last_alerts[symbol]` to the call time; a suppressed crossing mutates
nothing. -/
def checkLoop (st : AlertState) (current_time : ℤ) :
    List (String × PriceData) → AlertState × List Alert
  | [] => (st, [])
  | (symbol, price_data) :: rest =>
    if validate_price_data symbol price_data = false then
      checkLoop st current_time rest
    else
      let change_24h := pyNum price_data.change_24h
      if pyAbs change_24h ≥ st.threshold then
        if can_send_alert st symbol current_time = true then
          let st2 : AlertState :=
            ⟨st.threshold, st.cooldown, setAlert st.last_alerts symbol current_time⟩
          let r := checkLoop st2 current_time rest
          (r.1, ⟨symbol, price_data.price, change_24h, st.threshold,
            current_time, price_data.type⟩ :: r.2)
        else checkLoop st current_time rest
      else checkLoop st current_time rest

/-- `AlertSystem.check_price_alerts`: one pass over a batch at a single
`datetime.now()` instant, returning the mutated state and the alert list. -/
def check_price_alerts (st : AlertState) (current_time : ℤ)
    (prices : List (String × PriceData)) : AlertState × List Alert :=
  checkLoop st current_time prices

/-- Run a sequence of `check_price_alerts` calls, concatenating the emitted
alerts in order. -/
def runAlertCalls (st : AlertState) :
    List (ℤ × List (String × PriceData)) → AlertState × List Alert
  | [] => (st, [])
  | (t, batch) :: rest =>
    let r := check_price_alerts st t batch
    let r2 := runAlertCalls r.1 rest
    (r2.1, r.2 ++ r2.2)

/-- `AlertSystem.update_threshold`: a non-number or a nonpositive number is
rejected with a warning and no state change; otherwise the threshold is
replaced. -/
def update_threshold (st : AlertState) (new_threshold : PyVal) : AlertState :=
  match new_threshold with
  | .nonNum => st
  | .num q => if q ≤ 0 then st else ⟨q, st.cooldown, st.last_alerts⟩

/-- `AlertSystem.update_cooldown`: a non-integer (`none`) or a nonpositive
integer is rejected with a warning and no state change; otherwise the
cooldown is replaced. -/
def update_cooldown (st : AlertState) (new_cooldown : Option ℤ) : AlertState :=
  match new_cooldown with
  | none => st
  | some n => if n ≤ 0 then st else ⟨st.threshold, n, st.last_alerts⟩

/-! ## price_scraper.py -/

/-- `config.COINGECKO_RATE_LIMIT` (requests per minute). -/
def COINGECKO_RATE_LIMIT : ℚ := 50

/-- `PriceScraper.rate_limit_delay`: seconds between requests. -/
def rate_limit_delay : ℚ := 60 / COINGECKO_RATE_LIMIT

/-- `PriceScraper._rate_limit`, with the clock passed explicitly: given the
stored `last_request_time` and the `time.time()` read on entry, sleeping is
modelled as the return instant, and the second `time.time()` read that
refreshes `last_request_time` happens at that return instant.  The result
is `(return instant, new last_request_time)`. -/
def rate_limit_step (last_request_time current_time : ℚ) : ℚ × ℚ :=
  let time_since_last := current_time - last_request_time
  let return_time :=
    if time_since_last < rate_limit_delay then
      current_time + (rate_limit_delay - time_since_last)
    else current_time
  (return_time, return_time)

/-! ## Concrete inputs used by witnesses and counterexamples -/

/-- A well-formed crypto observation payload. -/
def demoPD : PriceData := ⟨.num 100, .num 2, "crypto"⟩

/-- A one-item batch holding `demoPD`. -/
def demoBatch : List (String × PriceData) := [("bitcoin", demoPD)]

/-- Two fault-free logging calls for the same symbol 30 seconds apart. -/
def demoCalls : List LoggerCall := [⟨noFaults, 0, demoBatch⟩, ⟨noFaults, 30, demoBatch⟩]

/-- A ledger holding one row 40 days old and one row 5 days old (seconds
relative to now = 0). -/
def demoLedger : List Entry :=
  [⟨-3456000, "bitcoin", .num 100, .num 2, "crypto"⟩,
   ⟨-432000, "bitcoin", .num 101, .num 1, "crypto"⟩]

/-- A crypto payload whose 24h change of +8 percent crosses the default
5 percent threshold. -/
def demoCrossPD : PriceData := ⟨.num 100, .num 8, "crypto"⟩

/-- An alert system in its constructed state: threshold 5, cooldown 300,
no alerts recorded. -/
def demoAlertState : AlertState := ⟨5, 300, []⟩

/-! ## Basic lemmas about the embedding -/

lemma pyAbs_eq_abs (q : ℚ) : pyAbs q = |q| := by
  by_cases h : q < 0
  · rw [pyAbs, if_pos h, abs_of_neg h]
  · rw [pyAbs, if_neg h, abs_of_nonneg (le_of_not_lt h)]

lemma pyAbs_of_nonneg {q : ℚ} (h : 0 ≤ q) : pyAbs q = q := by
  rw [pyAbs, if_neg (not_lt.mpr h)]

lemma pyAbs_of_nonpos {q : ℚ} (h : q ≤ 0) : pyAbs q = -q := by
  by_cases h2 : q < 0
  · rw [pyAbs, if_pos h2]
  · have h0 : q = 0 := le_antisymm h (not_lt.mp h2)
    rw [pyAbs, h0]
    norm_num

/-! ## Claim C8: validator admission boundaries -/

/-- Claim C8: the validator rejects price 0 (and every nonpositive or
non-numeric price), accepts exactly the strictly positive prices up to the
configured maximum — in particular every positive value however small — and
accepts a change whose magnitude is exactly the configured maximum while
rejecting any magnitude strictly above it. -/
theorem validation_boundary :
    validate_price (.num 0) = false ∧
    validate_price .nonNum = false ∧
    (∀ p : ℚ, validate_price (.num p) = true ↔ 0 < p ∧ p ≤ MAX_PRICE_VALUE) ∧
    (∀ c : ℚ, validate_change_percent (.num c) = true ↔ |c| ≤ MAX_CHANGE_PERCENT) := by
  refine ⟨by decide, rfl, fun p => ?_, fun c => ?_⟩
  · rw [validate_price]
    by_cases h : p ≤ 0 ∨ p > MAX_PRICE_VALUE
    · rw [if_pos h]
      constructor
      · intro hf; exact absurd hf (by decide)
      · rintro ⟨h1, h2⟩
        rcases h with h | h <;> linarith
    · rw [if_neg h]
      push_neg at h
      simp only [true_iff]
      exact h
  · rw [validate_change_percent, ← pyAbs_eq_abs]
    by_cases h : pyAbs c > MAX_CHANGE_PERCENT
    · rw [if_pos h]
      constructor
      · intro hf; exact absurd hf (by decide)
      · intro h2; exact absurd h (not_lt.mpr h2)
    · rw [if_neg h]
      simp only [true_iff]
      exact le_of_not_lt h

/-! ## Claim C9: the rate governor only delays -/

/-- Claim C9: `_rate_limit` is total — it cannot fail, only delay.  For a
call made at `current_time` with stored `last_request_time`, the
min interval is 60s divided by the configured 50 requests per minute, the
call returns no earlier than it was made, at least the min interval
separates the return instant from the stored timestamp of the previous
return, and the only state written is the refreshed timestamp, which equals
the return instant. -/
theorem rate_governor_spacing (last_request_time current_time : ℚ) :
    rate_limit_delay = 6 / 5 ∧
    current_time ≤ (rate_limit_step last_request_time current_time).1 ∧
    rate_limit_delay ≤
      (rate_limit_step last_request_time current_time).1 - last_request_time ∧
    (rate_limit_step last_request_time current_time).2 =
      (rate_limit_step last_request_time current_time).1 := by
  refine ⟨by norm_num [rate_limit_delay, COINGECKO_RATE_LIMIT], ?_, ?_, rfl⟩ <;>
  · simp only [rate_limit_step]
    split_ifs with h <;> linarith

/-! ## Claim C7: runtime parameter updates -/

/-- Claim C7: `update_threshold` rejects a non-numeric or nonpositive
value, and `update_cooldown` rejects a non-integer or nonpositive value, in
each case leaving the whole state unchanged; an in-range value replaces the
old one and touches nothing else. -/
theorem runtime_update_rejects (st : AlertState) (qBad qGood : ℚ)
    (nBad nGood : ℤ) (hqb : qBad ≤ 0) (hqg : 0 < qGood) (hnb : nBad ≤ 0)
    (hng : 0 < nGood) :
    update_threshold st .nonNum = st ∧
    update_threshold st (.num qBad) = st ∧
    update_threshold st (.num qGood) = ⟨qGood, st.cooldown, st.last_alerts⟩ ∧
    update_cooldown st none = st ∧
    update_cooldown st (some nBad) = st ∧
    update_cooldown st (some nGood) = ⟨st.threshold, nGood, st.last_alerts⟩ := by
  refine ⟨rfl, ?_, ?_, rfl, ?_, ?_⟩
  · rw [update_threshold, if_pos hqb]
  · rw [update_threshold, if_neg (not_le.mpr hqg)]
  · rw [update_cooldown, if_pos hnb]
  · rw [update_cooldown, if_neg (not_le.mpr hng)]

/-- Witness for `runtime_update_rejects` at the constructed alert state:
-1 and a non-number are rejected for the threshold, 2 is accepted; -60 and
a non-integer are rejected for the cooldown, 600 is accepted. -/
theorem runtime_update_rejects_witness :
    update_threshold demoAlertState .nonNum = demoAlertState ∧
    update_threshold demoAlertState (.num (-1)) = demoAlertState ∧
    update_threshold demoAlertState (.num 2) = ⟨2, 300, []⟩ ∧
    update_cooldown demoAlertState none = demoAlertState ∧
    update_cooldown demoAlertState (some (-60)) = demoAlertState ∧
    update_cooldown demoAlertState (some 600) = ⟨5, 600, []⟩ :=
  runtime_update_rejects demoAlertState (-1) 2 (-60) 600 (by decide) (by decide)
    (by decide) (by decide)

/-! ## Claim C3: the returned count double-counts per sink -/

/-- Claim C3 (code bug): on a fresh ledger, logging one valid, fresh
observation with both sinks succeeding writes exactly one row to each sink
yet returns 2, because `log_prices` sums the per-sink counts — the
docstring ("Number of entries logged") and the spec promise the number of
distinct entries written, which is 1. -/
theorem count_once_per_sink_bug :
    (log_prices ⟨[], []⟩ noFaults 0 demoBatch).1.db.length = 1 ∧
    (log_prices ⟨[], []⟩ noFaults 0 demoBatch).1.csv.length = 1 ∧
    (log_prices ⟨[], []⟩ noFaults 0 demoBatch).2 = 2 := by decide

/-! ## Claim C6: purge deletes exactly the old rows but returns nothing -/

/-- Claim C6 counterexample: `cleanup_old_data(days=30)` on a ledger with
rows 40 days and 5 days old deletes exactly the 40-day row and computes a
deleted count of 1, but the Python function body has no return statement,
so the caller receives `None`, not the count the claim promises. -/
theorem purge_returns_none_cex :
    (cleanup_old_data demoLedger 0 30).db
      = [⟨-432000, "bitcoin", .num 101, .num 1, "crypto"⟩] ∧
    (cleanup_old_data demoLedger 0 30).deleted_count = 1 ∧
    (cleanup_old_data demoLedger 0 30).ret = none ∧
    (cleanup_old_data demoLedger 0 30).ret ≠
      some (cleanup_old_data demoLedger 0 30).deleted_count := by decide

/-- Claim C6 as amended: for an in-range day count, `cleanup_old_data`
deletes exactly the rows whose timestamp is strictly older than the cutoff
of `days` before now, keeps every other row in order, and logs — but does
not return — the number of deleted rows. -/
theorem purge_deletes_old_amended (db : List Entry) (now days : ℤ)
    (h1 : 0 < days) (h2 : days ≤ MAX_CLEANUP_DAYS) :
    (cleanup_old_data db now days).db
      = db.filter (fun e => decide (now - days * 86400 ≤ e.timestamp)) ∧
    (cleanup_old_data db now days).deleted_count
      = (db.filter (fun e => decide (e.timestamp < now - days * 86400))).length ∧
    (cleanup_old_data db now days).ret = none := by
  have hd : (if days ≤ 0 ∨ days > MAX_CLEANUP_DAYS then DEFAULT_CLEANUP_DAYS
      else days) = days := by
    rw [if_neg]
    push_neg
    exact ⟨h1, h2⟩
  simp only [cleanup_old_data, hd]
  refine ⟨?_, trivial, trivial⟩
  apply List.filter_congr
  intro e _
  rw [decide_eq_decide, not_lt]

/-- Witness for `purge_deletes_old_amended` on the 40-day/5-day ledger with
a 30 day cutoff. -/
theorem purge_deletes_old_amended_witness :
    (cleanup_old_data demoLedger 0 30).db
      = demoLedger.filter (fun e => decide ((0:ℤ) - 30 * 86400 ≤ e.timestamp)) ∧
    (cleanup_old_data demoLedger 0 30).deleted_count
      = (demoLedger.filter (fun e => decide (e.timestamp < (0:ℤ) - 30 * 86400))).length ∧
    (cleanup_old_data demoLedger 0 30).ret = none :=
  purge_deletes_old_amended demoLedger 0 30 (by decide) (by decide)

/-! ## Ledger lemmas -/

/-- Every row kept by the first loop of `log_prices` carries the call time
and, at the moment it was admitted, was not flagged as a duplicate of the
table the call started from. -/
lemma buildBatch_mem {db : List Entry} {q : Bool} {now : ℤ}
    {batch : List (String × PriceData)} {e : Entry}
    (he : e ∈ buildBatch db q now batch) :
    e.timestamp = now ∧ is_duplicate db q e.symbol now e.asset_type = false := by
  induction batch with
  | nil => simp [buildBatch] at he
  | cons hd tl ih =>
    rw [buildBatch] at he
    by_cases hv : validate_price_data hd.1 hd.2 = false
    · rw [if_pos hv] at he
      exact ih he
    · rw [if_neg hv] at he
      by_cases hdup : is_duplicate db q hd.1 now hd.2.type = true
      · rw [if_pos hdup] at he
        exact ih he
      · rw [if_neg hdup] at he
        rcases List.mem_cons.mp he with rfl | he2
        · exact ⟨rfl, Bool.not_eq_true _ ▸ hdup⟩
        · exact ih he2

/-- The symbols of the rows kept by the first loop form a sublist of the
batch keys. -/
lemma buildBatch_symbols_sublist (db : List Entry) (q : Bool) (now : ℤ)
    (batch : List (String × PriceData)) :
    ((buildBatch db q now batch).map Entry.symbol).Sublist (batch.map Prod.fst) := by
  induction batch with
  | nil => simp [buildBatch]
  | cons hd tl ih =>
    rw [buildBatch]
    by_cases hv : validate_price_data hd.1 hd.2 = false
    · rw [if_pos hv]
      exact ih.cons hd.1
    · rw [if_neg hv]
      by_cases hdup : is_duplicate db q hd.1 now hd.2.type = true
      · rw [if_pos hdup]
        exact ih.cons hd.1
      · rw [if_neg hdup]
        rw [List.map_cons, List.map_cons]
        exact ih.cons₂ hd.1

/-- A row the dedup query (run without a fault) does not flag sits more
than the window away from every table row with its key. -/
lemma not_dup_separated {db : List Entry} {s a : String} {t : ℤ}
    (h : is_duplicate db false s t a = false) {d : Entry} (hd : d ∈ db)
    (hs : d.symbol = s) (ha : d.asset_type = a) :
    60 < (d.timestamp - t).natAbs := by
  rw [is_duplicate, if_neg (by simp)] at h
  rw [List.any_eq_false] at h
  have h2 := h d hd
  rw [decide_eq_true_eq] at h2
  push_neg at h2
  have h3 := h2 hs ha
  omega

/-- When the batch keys are distinct (they are the keys of a Python dict),
the rows kept by the first loop pairwise satisfy the separation relation,
vacuously: no two of them share a symbol. -/
lemma buildBatch_pairwise (db : List Entry) (q : Bool) (now : ℤ)
    (batch : List (String × PriceData))
    (h : (batch.map Prod.fst).Nodup) :
    (buildBatch db q now batch).Pairwise entrySeparated := by
  have hnd : ((buildBatch db q now batch).map Entry.symbol).Nodup :=
    h.sublist (buildBatch_symbols_sublist db q now batch)
  rw [List.Nodup, List.pairwise_map] at hnd
  exact hnd.imp fun hne hs _ => absurd hs hne

/-- One `log_prices` call whose dedup query does not fault preserves the
dedup invariant of the SQLite table, whatever the sink faults. -/
lemma log_prices_dedup_step (st : LogState) (f : SinkFaults) (now : ℤ)
    (batch : List (String × PriceData)) (hdb : DedupInv st.db)
    (hq : f.dedupFails = false) (hk : (batch.map Prod.fst).Nodup) :
    DedupInv (log_prices st f now batch).1.db := by
  rw [log_prices]
  by_cases h0 : batch = []
  · rw [if_pos h0]
    exact hdb
  · rw [if_neg h0]
    simp only [hq]
    by_cases h1 : buildBatch st.db false now batch = []
    · rw [if_pos h1]
      exact hdb
    · rw [if_neg h1]
      show DedupInv (log_to_sqlite st.db f.sqliteFails _).1
      rw [log_to_sqlite]
      by_cases h2 : f.sqliteFails = true
      · rw [if_pos h2]
        exact hdb
      · rw [if_neg h2]
        rw [DedupInv, List.pairwise_append]
        refine ⟨hdb, buildBatch_pairwise st.db false now batch hk, ?_⟩
        intro d hd e he hs ha
        obtain ⟨het, hdup⟩ := buildBatch_mem he
        rw [het]
        exact not_dup_separated hdup hd hs ha

/-- A fault-free `log_prices` call keeps the CSV flat log identical to the
SQLite table when they started identical. -/
lemma log_prices_csv_eq (st : LogState) (now : ℤ)
    (batch : List (String × PriceData)) (h : st.csv = st.db) :
    (log_prices st noFaults now batch).1.csv =
      (log_prices st noFaults now batch).1.db := by
  rw [log_prices]
  by_cases h0 : batch = []
  · rw [if_pos h0]
    exact h
  · rw [if_neg h0]
    by_cases h1 : buildBatch st.db noFaults.dedupFails now batch = []
    · rw [if_pos h1]
      exact h
    · rw [if_neg h1]
      show (log_to_csv st.csv noFaults.csvFails _).1 =
        (log_to_sqlite st.db noFaults.sqliteFails _).1
      rw [log_to_csv, log_to_sqlite, if_neg (by decide), if_neg (by decide), h]

/-- Invariant preservation along any fault-free run of the logger. -/
lemma runLogger_inv (calls : List LoggerCall) :
    ∀ st : LogState, DedupInv st.db → st.csv = st.db →
    (∀ c ∈ calls, c.faults = noFaults) →
    (∀ c ∈ calls, (c.prices.map Prod.fst).Nodup) →
    DedupInv (runLogger st calls).db ∧
      (runLogger st calls).csv = (runLogger st calls).db := by
  induction calls with
  | nil =>
    intro st h1 h2 _ _
    exact ⟨h1, h2⟩
  | cons c rest ih =>
    intro st h1 h2 hf hk
    have hfc : c.faults = noFaults := hf c (List.mem_cons_self c rest)
    have hkc : (c.prices.map Prod.fst).Nodup := hk c (List.mem_cons_self c rest)
    rw [runLogger]
    refine ih _ ?_ ?_ (fun d hd => hf d (List.mem_cons_of_mem c hd))
      (fun d hd => hk d (List.mem_cons_of_mem c hd))
    · exact log_prices_dedup_step st c.faults c.time c.prices h1
        (by rw [hfc]; rfl) hkc
    · rw [hfc]
      exact log_prices_csv_eq st c.time c.prices h2

/-! ## Claim C1: the ledger dedup invariant -/

/-- Claim C1: starting from an empty ledger, any fault-free sequence of
`log_prices` calls — any call order, any batch grouping (batch keys are
Python dict keys, hence distinct) — leaves a ledger in which no two rows
share a `(symbol, asset_type)` key with timestamps within the one-minute
dedup window of each other; two candidate observations with the same key
inside the window therefore create at most one row.  The flat log holds
exactly the same rows. -/
theorem dedup_invariant (calls : List LoggerCall)
    (hf : ∀ c ∈ calls, c.faults = noFaults)
    (hk : ∀ c ∈ calls, (c.prices.map Prod.fst).Nodup) :
    DedupInv (runLogger ⟨[], []⟩ calls).db ∧
      (runLogger ⟨[], []⟩ calls).csv = (runLogger ⟨[], []⟩ calls).db :=
  runLogger_inv calls ⟨[], []⟩ List.Pairwise.nil rfl hf hk

/-- Witness for `dedup_invariant`: the same observation submitted in two
calls 30 seconds apart. -/
theorem dedup_invariant_witness :
    DedupInv (runLogger ⟨[], []⟩ demoCalls).db ∧
      (runLogger ⟨[], []⟩ demoCalls).csv = (runLogger ⟨[], []⟩ demoCalls).db :=
  dedup_invariant demoCalls (by decide) (by decide)

/-- Evaluation of a one-item `log_prices` call whose item is valid and not
flagged as a duplicate: the row reaches both sink writers and the two sink
counts are summed. -/
lemma log_prices_single (st : LogState) (f : SinkFaults) (s : String)
    (pd : PriceData) (t : ℤ) (hv : validate_price_data s pd = true)
    (hd : is_duplicate st.db f.dedupFails s t pd.type = false) :
    log_prices st f t [(s, pd)] =
      (⟨(log_to_sqlite st.db f.sqliteFails
            [⟨t, s, pd.price, pd.change_24h, pd.type⟩]).1,
        (log_to_csv st.csv f.csvFails
            [⟨t, s, pd.price, pd.change_24h, pd.type⟩]).1⟩,
       (log_to_sqlite st.db f.sqliteFails
            [⟨t, s, pd.price, pd.change_24h, pd.type⟩]).2 +
       (log_to_csv st.csv f.csvFails
            [⟨t, s, pd.price, pd.change_24h, pd.type⟩]).2) := by
  have hb : buildBatch st.db f.dedupFails t [(s, pd)] =
      [⟨t, s, pd.price, pd.change_24h, pd.type⟩] := by
    rw [buildBatch, if_neg (by simp [hv]), if_neg (by simp [hd]), buildBatch]
  rw [log_prices, if_neg (by simp), hb, if_neg (by simp)]

/-! ## Claim C2: sink independence and the dedup index -/

/-- Claim C2 counterexample: logging one valid fresh observation while the
SQLite write fails and the CSV write succeeds returns 1 (the entry counts
as written) and leaves the SQLite table — which IS the dedup index — empty,
so re-submitting the same observation at the same instant is not skipped as
a duplicate: the second call returns a nonzero count and grows the table. -/
theorem sink_failure_not_deduped_cex :
    (log_prices ⟨[], []⟩ ⟨false, true, false⟩ 0 demoBatch).2 = 1 ∧
    (log_prices ⟨[], []⟩ ⟨false, true, false⟩ 0 demoBatch).1.db = [] ∧
    (log_prices (log_prices ⟨[], []⟩ ⟨false, true, false⟩ 0 demoBatch).1
        noFaults 0 demoBatch).2 ≠ 0 ∧
    (log_prices (log_prices ⟨[], []⟩ ⟨false, true, false⟩ 0 demoBatch).1
        noFaults 0 demoBatch).1.db ≠ [] := by decide

/-- Claim C2 as amended: when the SQLite write fails and the CSV write
succeeds for a valid fresh entry, `log_prices` still counts the entry as
written (returns 1), but the dedup index — the SQLite table — does not
reflect it: a later re-submission of the same observation that is fresh
with respect to the unchanged table is written again rather than skipped. -/
theorem sink_independence_amended (st : LogState) (s : String)
    (pd : PriceData) (t t2 : ℤ) (hv : validate_price_data s pd = true)
    (hd1 : is_duplicate st.db false s t pd.type = false)
    (hd2 : is_duplicate st.db false s t2 pd.type = false) :
    (log_prices st ⟨false, true, false⟩ t [(s, pd)]).2 = 1 ∧
    (log_prices st ⟨false, true, false⟩ t [(s, pd)]).1.db = st.db ∧
    (log_prices (log_prices st ⟨false, true, false⟩ t [(s, pd)]).1 noFaults
        t2 [(s, pd)]).1.db
      = st.db ++ [⟨t2, s, pd.price, pd.change_24h, pd.type⟩] := by
  have h1 := log_prices_single st ⟨false, true, false⟩ s pd t hv hd1
  have hst1 : (log_prices st ⟨false, true, false⟩ t [(s, pd)]).1.db = st.db := by
    rw [h1]
    simp [log_to_sqlite]
  refine ⟨?_, hst1, ?_⟩
  · rw [h1]
    simp [log_to_sqlite, log_to_csv]
  · have h2 := log_prices_single (log_prices st ⟨false, true, false⟩ t
        [(s, pd)]).1 noFaults s pd t2 hv (by rw [hst1]; exact hd2)
    rw [h2]
    simp [log_to_sqlite, noFaults, hst1]

/-- Witness for `sink_independence_amended`: a fresh ledger, the demo
observation, both calls at the same instant. -/
theorem sink_independence_amended_witness :
    (log_prices ⟨[], []⟩ ⟨false, true, false⟩ 0 [("bitcoin", demoPD)]).2 = 1 ∧
    (log_prices ⟨[], []⟩ ⟨false, true, false⟩ 0 [("bitcoin", demoPD)]).1.db = [] ∧
    (log_prices (log_prices ⟨[], []⟩ ⟨false, true, false⟩ 0
        [("bitcoin", demoPD)]).1 noFaults 0 [("bitcoin", demoPD)]).1.db
      = [] ++ [⟨0, "bitcoin", demoPD.price, demoPD.change_24h, demoPD.type⟩] :=
  sink_independence_amended ⟨[], []⟩ "bitcoin" demoPD 0 0 (by decide)
    (by decide) (by decide)

/-! ## Claim C10: the duplicate check fails open -/

/-- Claim C10: if the dedup query raises, `_is_duplicate` returns false, so
the candidate is treated as new and written to both sinks; a transient
read fault during the check therefore produces two ledger rows with the
same key inside the dedup window, breaking the dedup invariant. -/
theorem dedup_fails_open (st : LogState) (s : String) (pd : PriceData)
    (t1 t2 : ℤ) (hv : validate_price_data s pd = true)
    (hd1 : is_duplicate st.db false s t1 pd.type = false)
    (hw1 : t1 - 60 ≤ t2) (hw2 : t2 ≤ t1 + 60) :
    is_duplicate (log_prices st noFaults t1 [(s, pd)]).1.db false s t2
      pd.type = true ∧
    is_duplicate (log_prices st noFaults t1 [(s, pd)]).1.db true s t2
      pd.type = false ∧
    (log_prices (log_prices st noFaults t1 [(s, pd)]).1 ⟨true, false, false⟩
        t2 [(s, pd)]).1.db
      = st.db ++ [⟨t1, s, pd.price, pd.change_24h, pd.type⟩,
                  ⟨t2, s, pd.price, pd.change_24h, pd.type⟩] ∧
    (log_prices (log_prices st noFaults t1 [(s, pd)]).1 ⟨true, false, false⟩
        t2 [(s, pd)]).1.csv
      = st.csv ++ [⟨t1, s, pd.price, pd.change_24h, pd.type⟩,
                   ⟨t2, s, pd.price, pd.change_24h, pd.type⟩] ∧
    ¬ DedupInv (log_prices (log_prices st noFaults t1 [(s, pd)]).1
        ⟨true, false, false⟩ t2 [(s, pd)]).1.db := by
  have h1 := log_prices_single st noFaults s pd t1 hv hd1
  have hdb1 : (log_prices st noFaults t1 [(s, pd)]).1.db
      = st.db ++ [⟨t1, s, pd.price, pd.change_24h, pd.type⟩] := by
    rw [h1]
    simp [log_to_sqlite, noFaults]
  have hcsv1 : (log_prices st noFaults t1 [(s, pd)]).1.csv
      = st.csv ++ [⟨t1, s, pd.price, pd.change_24h, pd.type⟩] := by
    rw [h1]
    simp [log_to_csv, noFaults]
  have h2 := log_prices_single (log_prices st noFaults t1 [(s, pd)]).1
      ⟨true, false, false⟩ s pd t2 hv (by rw [is_duplicate, if_pos rfl])
  have hdb2 : (log_prices (log_prices st noFaults t1 [(s, pd)]).1
      ⟨true, false, false⟩ t2 [(s, pd)]).1.db
      = st.db ++ [⟨t1, s, pd.price, pd.change_24h, pd.type⟩,
                  ⟨t2, s, pd.price, pd.change_24h, pd.type⟩] := by
    rw [h2]
    simp [log_to_sqlite, hdb1]
  refine ⟨?_, by rw [is_duplicate, if_pos rfl], hdb2, ?_, ?_⟩
  · rw [hdb1, is_duplicate, if_neg (by simp), List.any_eq_true]
    refine ⟨⟨t1, s, pd.price, pd.change_24h, pd.type⟩,
      List.mem_append_right _ (List.mem_singleton.mpr rfl), ?_⟩
    rw [decide_eq_true_eq]
    exact ⟨rfl, rfl, by show t2 - 60 ≤ t1; omega, by show t1 ≤ t2 + 60; omega⟩
  · rw [h2]
    simp only [log_to_csv]
    rw [if_neg (by decide), hcsv1, List.append_assoc]
    rfl
  · intro hP
    rw [DedupInv, hdb2, List.pairwise_append] at hP
    have hsep := hP.2.1
    rw [List.pairwise_cons] at hsep
    have h3 := hsep.1 ⟨t2, s, pd.price, pd.change_24h, pd.type⟩
      (List.mem_singleton.mpr rfl) rfl rfl
    have h4 : 60 < (t1 - t2).natAbs := h3
    omega

/-- Witness for `dedup_fails_open`: fresh ledger, demo observation, second
submission 30 seconds after the first with the dedup query faulting. -/
theorem dedup_fails_open_witness :
    is_duplicate (log_prices ⟨[], []⟩ noFaults 0 [("bitcoin", demoPD)]).1.db
      false "bitcoin" 30 demoPD.type = true ∧
    is_duplicate (log_prices ⟨[], []⟩ noFaults 0 [("bitcoin", demoPD)]).1.db
      true "bitcoin" 30 demoPD.type = false ∧
    (log_prices (log_prices ⟨[], []⟩ noFaults 0 [("bitcoin", demoPD)]).1
        ⟨true, false, false⟩ 30 [("bitcoin", demoPD)]).1.db
      = [] ++ [⟨0, "bitcoin", demoPD.price, demoPD.change_24h, demoPD.type⟩,
               ⟨30, "bitcoin", demoPD.price, demoPD.change_24h, demoPD.type⟩] ∧
    (log_prices (log_prices ⟨[], []⟩ noFaults 0 [("bitcoin", demoPD)]).1
        ⟨true, false, false⟩ 30 [("bitcoin", demoPD)]).1.csv
      = [] ++ [⟨0, "bitcoin", demoPD.price, demoPD.change_24h, demoPD.type⟩,
               ⟨30, "bitcoin", demoPD.price, demoPD.change_24h, demoPD.type⟩] ∧
    ¬ DedupInv (log_prices (log_prices ⟨[], []⟩ noFaults 0
        [("bitcoin", demoPD)]).1 ⟨true, false, false⟩ 30
        [("bitcoin", demoPD)]).1.db :=
  dedup_fails_open ⟨[], []⟩ "bitcoin" demoPD 0 30 (by decide) (by decide)
    (by decide) (by decide)

/-! ## Alert engine lemmas -/

/-- Looking up the key just assigned returns the assigned time. -/
lemma lookupAlert_setAlert_self (m : List (String × ℤ)) (symbol : String)
    (t : ℤ) : lookupAlert (setAlert m symbol t) symbol = some t := by
  induction m with
  | nil => simp [setAlert, lookupAlert]
  | cons p rest ih =>
    rw [setAlert]
    by_cases h : p.1 = symbol
    · rw [if_pos h, lookupAlert, if_pos h]
    · rw [if_neg h, lookupAlert, if_neg h]
      exact ih

/-- A single-item call that is valid, crosses the threshold and passes the
cooldown check emits the event and records the call time for the symbol. -/
lemma check_single_emit (st : AlertState) (symbol : String) (pd : PriceData)
    (t : ℤ) (hv : validate_price_data symbol pd = true)
    (hc : pyAbs (pyNum pd.change_24h) ≥ st.threshold)
    (hs : can_send_alert st symbol t = true) :
    check_price_alerts st t [(symbol, pd)] =
      (⟨st.threshold, st.cooldown, setAlert st.last_alerts symbol t⟩,
       [⟨symbol, pd.price, pyNum pd.change_24h, st.threshold, t, pd.type⟩]) := by
  simp only [check_price_alerts, checkLoop]
  rw [if_neg (by simp [hv]), if_pos hc, if_pos hs]

/-- A single-item call that is valid and crosses the threshold but fails
the cooldown check is suppressed: no event, no state mutation. -/
lemma check_single_suppressed (st : AlertState) (symbol : String)
    (pd : PriceData) (t : ℤ) (hv : validate_price_data symbol pd = true)
    (hc : pyAbs (pyNum pd.change_24h) ≥ st.threshold)
    (hs : can_send_alert st symbol t = false) :
    check_price_alerts st t [(symbol, pd)] = (st, []) := by
  simp only [check_price_alerts, checkLoop]
  rw [if_neg (by simp [hv]), if_pos hc, if_neg (by simp [hs])]

/-- A single-item call that is valid but does not reach the threshold
emits nothing and mutates nothing. -/
lemma check_single_nocross (st : AlertState) (symbol : String)
    (pd : PriceData) (t : ℤ) (hv : validate_price_data symbol pd = true)
    (hc : pyAbs (pyNum pd.change_24h) < st.threshold) :
    check_price_alerts st t [(symbol, pd)] = (st, []) := by
  simp only [check_price_alerts, checkLoop]
  rw [if_neg (by simp [hv]), if_neg (not_le.mpr hc)]

/-- A run of single-item crossing calls for a symbol whose recorded alert
time is `t1`, each call strictly inside the cooldown window, changes
nothing and emits nothing. -/
lemma suppressed_run (symbol : String) (t1 : ℤ) (st : AlertState)
    (hl : lookupAlert st.last_alerts symbol = some t1) :
    ∀ rest : List (ℤ × PriceData),
    (∀ p ∈ rest, validate_price_data symbol p.2 = true ∧
        pyAbs (pyNum p.2.change_24h) ≥ st.threshold ∧
        p.1 - t1 < st.cooldown) →
    runAlertCalls st (rest.map fun p => (p.1, [(symbol, p.2)])) = (st, []) := by
  intro rest
  induction rest with
  | nil =>
    intro _
    rw [List.map_nil, runAlertCalls]
  | cons p ps ih =>
    intro h
    have hp := h p (List.mem_cons_self p ps)
    have hsup : can_send_alert st symbol p.1 = false := by
      rw [can_send_alert, hl]
      exact decide_eq_false (not_le.mpr hp.2.2)
    rw [List.map_cons, runAlertCalls,
      check_single_suppressed st symbol p.2 p.1 hp.1 hp.2.1 hsup,
      ih fun q hq => h q (List.mem_cons_of_mem p hq)]
    rfl

/-! ## Claim C4: the cooldown invariant -/

/-- Claim C4: an entity with no recorded alert that receives one
threshold-crossing observation at `t1` and then any number of further
crossing observations strictly inside one cooldown period emits exactly
one alert event — the one for the first crossing, stamped `t1` — and each
suppressed crossing leaves the cooldown state untouched: the final state
still maps the symbol to `t1` and is otherwise the post-first-alert
state. -/
theorem cooldown_invariant (st0 : AlertState) (symbol : String)
    (pd1 : PriceData) (t1 : ℤ) (rest : List (ℤ × PriceData))
    (hfresh : lookupAlert st0.last_alerts symbol = none)
    (hv1 : validate_price_data symbol pd1 = true)
    (hc1 : pyAbs (pyNum pd1.change_24h) ≥ st0.threshold)
    (hrest : ∀ p ∈ rest, validate_price_data symbol p.2 = true ∧
        pyAbs (pyNum p.2.change_24h) ≥ st0.threshold ∧
        p.1 - t1 < st0.cooldown) :
    (runAlertCalls st0 ((t1, [(symbol, pd1)]) ::
        rest.map fun p => (p.1, [(symbol, p.2)]))).2
      = [⟨symbol, pd1.price, pyNum pd1.change_24h, st0.threshold, t1,
          pd1.type⟩] ∧
    (runAlertCalls st0 ((t1, [(symbol, pd1)]) ::
        rest.map fun p => (p.1, [(symbol, p.2)]))).1
      = ⟨st0.threshold, st0.cooldown, setAlert st0.last_alerts symbol t1⟩ := by
  have hsend : can_send_alert st0 symbol t1 = true := by
    rw [can_send_alert, hfresh]
  have h1 := check_single_emit st0 symbol pd1 t1 hv1 hc1 hsend
  have h2 := suppressed_run symbol t1
    ⟨st0.threshold, st0.cooldown, setAlert st0.last_alerts symbol t1⟩
    (lookupAlert_setAlert_self st0.last_alerts symbol t1) rest hrest
  refine ⟨?_, ?_⟩ <;> simp [runAlertCalls, h1, h2]

/-- Witness for `cooldown_invariant`: threshold 5, cooldown 300, a +8
percent crossing at t=0 followed by another +8 percent crossing at t=120,
inside the cooldown. -/
theorem cooldown_invariant_witness :
    (runAlertCalls demoAlertState ((0, [("bitcoin", demoCrossPD)]) ::
        ([((120 : ℤ), demoCrossPD)]).map fun p => (p.1, [("bitcoin", p.2)]))).2
      = [⟨"bitcoin", demoCrossPD.price, pyNum demoCrossPD.change_24h,
          demoAlertState.threshold, 0, demoCrossPD.type⟩] ∧
    (runAlertCalls demoAlertState ((0, [("bitcoin", demoCrossPD)]) ::
        ([((120 : ℤ), demoCrossPD)]).map fun p => (p.1, [("bitcoin", p.2)]))).1
      = ⟨demoAlertState.threshold, demoAlertState.cooldown,
          setAlert demoAlertState.last_alerts "bitcoin" 0⟩ :=
  cooldown_invariant demoAlertState "bitcoin" demoCrossPD 0
    [((120 : ℤ), demoCrossPD)] (by decide) (by decide) (by decide) (by decide)


/-- A crypto payload with in-range numeric price and change passes
validation. -/
lemma validate_price_data_crypto (symbol : String) (p c : ℚ)
    (hs : ¬ symbol = "") (hp1 : 0 < p) (hp2 : p ≤ MAX_PRICE_VALUE)
    (hc : pyAbs c ≤ MAX_CHANGE_PERCENT) :
    validate_price_data symbol ⟨.num p, .num c, "crypto"⟩ = true := by
  have h1 : validate_price (.num p) = true := by
    rw [validate_price, if_neg]
    push_neg
    exact ⟨hp1, hp2⟩
  have h2 : validate_change_percent (.num c) = true := by
    rw [validate_change_percent, if_neg (not_lt.mpr hc)]
  rw [validate_price_data, if_neg hs, if_neg (by simp [h1]),
    if_neg (by simp [h2]), if_neg (by simp)]

/-! ## Claim C5: threshold boundary, inclusive and sign-agnostic -/

/-- Claim C5: for a fresh alert state with threshold `th` (positive and
within the validation bound) a change of exactly `+th` or exactly `-th`
triggers an alert — the comparison is an inclusive `>=` on the magnitude —
while a change whose magnitude is `th - eps` for any positive `eps` up to
`th` triggers nothing, regardless of sign. -/
theorem threshold_boundary (th eps : ℚ) (cd : ℤ) (hth : 0 < th)
    (hmax : th ≤ MAX_CHANGE_PERCENT) (he1 : 0 < eps) (he2 : eps ≤ th) :
    (check_price_alerts ⟨th, cd, []⟩ 0
        [("bitcoin", ⟨.num 100, .num th, "crypto"⟩)]).2.length = 1 ∧
    (check_price_alerts ⟨th, cd, []⟩ 0
        [("bitcoin", ⟨.num 100, .num (-th), "crypto"⟩)]).2.length = 1 ∧
    (check_price_alerts ⟨th, cd, []⟩ 0
        [("bitcoin", ⟨.num 100, .num (th - eps), "crypto"⟩)]).2.length = 0 ∧
    (check_price_alerts ⟨th, cd, []⟩ 0
        [("bitcoin", ⟨.num 100, .num (eps - th), "crypto"⟩)]).2.length = 0 := by
  have hmaxq : (100 : ℚ) ≤ MAX_PRICE_VALUE := by norm_num [MAX_PRICE_VALUE]
  have habs1 : pyAbs th = th := pyAbs_of_nonneg (le_of_lt hth)
  have habs2 : pyAbs (-th) = th := by
    rw [pyAbs_of_nonpos (by linarith), neg_neg]
  have habs3 : pyAbs (th - eps) = th - eps := pyAbs_of_nonneg (by linarith)
  have habs4 : pyAbs (eps - th) = th - eps := by
    rw [pyAbs_of_nonpos (by linarith)]
    ring
  have hsend : can_send_alert ⟨th, cd, []⟩ "bitcoin" 0 = true := rfl
  refine ⟨?_, ?_, ?_, ?_⟩
  · rw [check_single_emit ⟨th, cd, []⟩ "bitcoin" ⟨.num 100, .num th, "crypto"⟩ 0
      (validate_price_data_crypto _ _ _ (by simp) (by norm_num) hmaxq
        (by rw [habs1]; exact hmax))
      (by show pyAbs (pyNum (.num th)) ≥ th; rw [pyNum, habs1]) hsend]
    rfl
  · rw [check_single_emit ⟨th, cd, []⟩ "bitcoin" ⟨.num 100, .num (-th), "crypto"⟩ 0
      (validate_price_data_crypto _ _ _ (by simp) (by norm_num) hmaxq
        (by rw [habs2]; exact hmax))
      (by show pyAbs (pyNum (.num (-th))) ≥ th; rw [pyNum, habs2]) hsend]
    rfl
  · rw [check_single_nocross ⟨th, cd, []⟩ "bitcoin"
      ⟨.num 100, .num (th - eps), "crypto"⟩ 0
      (validate_price_data_crypto _ _ _ (by simp) (by norm_num) hmaxq
        (by rw [habs3]; linarith))
      (by show pyAbs (pyNum (.num (th - eps))) < th; rw [pyNum, habs3]; linarith)]
    rfl
  · rw [check_single_nocross ⟨th, cd, []⟩ "bitcoin"
      ⟨.num 100, .num (eps - th), "crypto"⟩ 0
      (validate_price_data_crypto _ _ _ (by simp) (by norm_num) hmaxq
        (by rw [habs4]; linarith))
      (by show pyAbs (pyNum (.num (eps - th))) < th; rw [pyNum, habs4]; linarith)]
    rfl

/-- Witness for `threshold_boundary` at threshold 5 with eps 1: changes of
+5 and -5 trigger, changes of +4 and -4 do not. -/
theorem threshold_boundary_witness :
    (check_price_alerts ⟨5, 300, []⟩ 0
        [("bitcoin", ⟨.num 100, .num 5, "crypto"⟩)]).2.length = 1 ∧
    (check_price_alerts ⟨5, 300, []⟩ 0
        [("bitcoin", ⟨.num 100, .num (-5), "crypto"⟩)]).2.length = 1 ∧
    (check_price_alerts ⟨5, 300, []⟩ 0
        [("bitcoin", ⟨.num 100, .num (5 - 1), "crypto"⟩)]).2.length = 0 ∧
    (check_price_alerts ⟨5, 300, []⟩ 0
        [("bitcoin", ⟨.num 100, .num (1 - 5), "crypto"⟩)]).2.length = 0 :=
  threshold_boundary 5 1 300 (by decide) (by decide) (by decide) (by decide)

end CryptoDashboard
